import Mathlib

/-!
Shallow embedding of the core of `src/QrCode_Flet.py` (QR label generator for
biochar/biomass samples): field normalization (`_titlecase`, `_normalize_date`),
payload builders (`make_payload_biochar`, `make_payload_biomass`,
`make_text_biochar`, `make_text_biomass`), the label renderer
(`render_label_pil`) and the `generate_preview` event handler.

Modelling conventions:
* Python strings are Lean `String`s; the string predicates (`str.split`,
  `str.strip`, `str.isupper`, `str.upper`, `str.lower`, the `\d` regex class)
  are modelled at ASCII level, which covers every character class the
  repository feeds them.
* Python floats are modelled exactly: `float(...)` parsing produces a rational
  (`PyFloatVal.fin`), an infinity, or a NaN; decimal literals are read exactly
  (no binary rounding), which agrees with Python on every value the claims
  touch.
* The PIL font measurement (`ImageDraw.textbbox`) and the `textwrap.fill` line
  breaker depend on an external font resource; `render_label_pil` takes them as
  parameters (`measure`, `fillWrap`).
* The `qrcode` library is embedded by its observable geometry: automatic
  version selection picks the smallest version 1..40 whose byte-mode capacity
  at error-correction level M holds the UTF-8 payload, raising
  `DataOverflowError` otherwise; the rendered symbol is a square of
  `(17 + 4*version + 2*border) * box_size` pixels.
-/

namespace QrLabel

/-- ASCII whitespace, as recognized by Python `str.split()` / `str.strip()`. -/
def isPySpace (c : Char) : Bool :=
  c = ' ' || c = '\t' || c = '\n' || c = '\r' || c = '\x0b' || c = '\x0c'

/-- Python `str.strip()` (ASCII whitespace). -/
def pyStrip (s : String) : String :=
  String.mk (((s.data.dropWhile isPySpace).reverse.dropWhile isPySpace).reverse)

/-- Helper for `pySplitList`: `acc` holds the (reversed) characters of the
token currently being read. -/
def pySplitAux : List Char → List Char → List (List Char)
  | [], acc => if acc = [] then [] else [acc.reverse]
  | c :: cs, acc =>
    if isPySpace c then
      if acc = [] then pySplitAux cs []
      else acc.reverse :: pySplitAux cs []
    else pySplitAux cs (c :: acc)

/-- Python `str.split()` with no argument: split on runs of whitespace,
discarding empty fields. -/
def pySplitList (l : List Char) : List (List Char) :=
  pySplitAux l []

def pySplit (s : String) : List String :=
  (pySplitList s.data).map String.mk

/-- Python `str.isupper()` (ASCII): all cased characters are uppercase and
there is at least one cased character. -/
def pyIsUpper (s : String) : Bool :=
  s.data.any (fun c => c.isAlpha) && s.data.all (fun c => !c.isAlpha || c.isUpper)

/-- Python `p[:1].upper() + p[1:].lower()` (ASCII). -/
def pyCapToken (p : String) : String :=
  match p.data with
  | [] => ""
  | c :: cs => String.mk (c.toUpper :: cs.map Char.toLower)

/-- The `for p in parts` loop body of `_titlecase`. -/
def titleParts : List String → List String
  | [] => []
  | p :: ps =>
    (if p.length ≤ 3 && pyIsUpper p then p else pyCapToken p) :: titleParts ps

/-- `_titlecase` from the source: keep short all-caps tokens (likely acronyms),
capitalize the rest, rejoin with single spaces. -/
def _titlecase (s : String) : String :=
  if s = "" then s
  else " ".intercalate (titleParts (pySplit s))

/-- The regex class `\d` (ASCII decimal digit). -/
def isDig (c : Char) : Bool := 48 ≤ c.toNat && c.toNat ≤ 57

/-- `re.fullmatch(r"\d{4}-\d{2}-\d{2}", s)` (ASCII digits). -/
def date_ymd : List Char → Bool
  | [y1, y2, y3, y4, h1, m1, m2, h2, d1, d2] =>
    isDig y1 && isDig y2 && isDig y3 && isDig y4 && h1 = '-' &&
    isDig m1 && isDig m2 && h2 = '-' && isDig d1 && isDig d2
  | _ => false

/-- `re.fullmatch(r"(\d{2})X(\d{2})X(\d{4})", s)` with separator `sep`, and the
`f"{yyyy}-{mm}-{dd}"` rearrangement applied to the groups. -/
def date_dmy (sep : Char) : List Char → Option String
  | [d1, d2, h1, m1, m2, h2, y1, y2, y3, y4] =>
    if isDig d1 && isDig d2 && h1 = sep && isDig m1 && isDig m2 &&
       h2 = sep && isDig y1 && isDig y2 && isDig y3 && isDig y4
    then some (String.mk [y1, y2, y3, y4, '-', m1, m2, '-', d1, d2])
    else none
  | _ => none

/-- `_normalize_date` from the source. -/
def _normalize_date (s : String) : String :=
  let t := pyStrip s
  if t = "" then ""
  else if date_ymd t.data then t
  else
    match date_dmy '/' t.data with
    | some r => r
    | none =>
      match date_dmy '-' t.data with
      | some r => r
      | none => t

/-! ## Python `float()` -/

/-- Result of a successful Python `float(...)` call: a finite value (kept as an
exact rational), an infinity, or a NaN. -/
inductive PyFloatVal : Type
  | fin (q : Rat)
  | inf (neg : Bool)
  | nan
deriving DecidableEq, Repr

/-- Helper for `digitsRun`; `acc` holds the digits read so far, reversed. -/
def digitsRunAux : List Char → List Char → List Char × List Char
  | [], acc => (acc.reverse, [])
  | c :: cs, acc =>
    if c.isDigit then digitsRunAux cs (c :: acc)
    else if c = '_' ∧ acc ≠ [] then
      match cs with
      | d :: cs2 =>
        if d.isDigit then digitsRunAux cs2 (d :: acc)
        else (acc.reverse, c :: cs)
      | [] => (acc.reverse, [c])
    else (acc.reverse, c :: cs)

/-- Read a digit run with Python's underscore rule (an underscore must sit
between two digits); returns the digits (underscores removed) and the rest. -/
def digitsRun (l : List Char) : List Char × List Char := digitsRunAux l []

def natOfDigits (l : List Char) : Nat :=
  l.foldl (fun n c => 10 * n + (c.toNat - 48)) 0

/-- Value of a decimal literal with integer digits `ip`, fractional digits
`fp`, and decimal exponent `e`: `digits(ip ++ fp) * 10 ^ (e - |fp|)`. -/
def decValue (ip fp : List Char) (e : Int) : Rat :=
  let d : Int := e - (fp.length : Int)
  if 0 ≤ d then mkRat (natOfDigits (ip ++ fp) * 10 ^ d.toNat) 1
  else mkRat (natOfDigits (ip ++ fp)) (10 ^ (-d).toNat)

/-- Exponent suffix (`e`/`E`, optional sign, digit run) followed by end of
input; yields the finite value. -/
def parseExpPart (ip fp : List Char) (r : List Char) : Option PyFloatVal :=
  match r with
  | [] => some (.fin (decValue ip fp 0))
  | e :: r2 =>
    if e = 'e' ∨ e = 'E' then
      let sr : Bool × List Char :=
        match r2 with
        | '+' :: r3 => (false, r3)
        | '-' :: r3 => (true, r3)
        | _ => (false, r2)
      let p := digitsRun sr.2
      if p.1 = [] ∨ p.2 ≠ [] then none
      else
        let ev : Int := if sr.1 then -(natOfDigits p.1 : Int) else (natOfDigits p.1 : Int)
        some (.fin (decValue ip fp ev))
    else none

/-- Body of a float literal after the optional sign. -/
def parseFloatBody (l : List Char) : Option PyFloatVal :=
  let low := l.map Char.toLower
  if low = "inf".data ∨ low = "infinity".data then some (.inf false)
  else if low = "nan".data then some .nan
  else
    let p := digitsRun l
    match p.2 with
    | '.' :: r2 =>
      let q := digitsRun r2
      if p.1 = [] ∧ q.1 = [] then none else parseExpPart p.1 q.1 q.2
    | _ => if p.1 = [] then none else parseExpPart p.1 [] p.2

def pyNegVal : PyFloatVal → PyFloatVal
  | .fin q => .fin (-q)
  | .inf b => .inf (!b)
  | .nan => .nan

/-- Python `float(s)` on ASCII input: `none` models a `ValueError`. -/
def pyFloat (s : String) : Option PyFloatVal :=
  let l := (s.data.dropWhile isPySpace).reverse.dropWhile isPySpace |>.reverse
  match l with
  | '+' :: r => parseFloatBody r
  | '-' :: r => (parseFloatBody r).map pyNegVal
  | r => parseFloatBody r

/-- `tf.value or "0"`: an empty (falsy) field falls back to `"0"`. -/
def pyOrZero (s : String) : String := if s = "" then "0" else s

/-- Python `s.replace(",", ".")`: every comma becomes a dot (single-character
pattern, so a per-character map). -/
def commaToDot (s : String) : String :=
  String.mk (s.data.map (fun c => if c = ',' then '.' else c))

/-- The numeric-field recovery in `generate_preview`:
`try: float((value or "0").replace(",", ".")) except ValueError: 0.0`. -/
def pyFloatOr0 (s : String) : PyFloatVal :=
  match pyFloat (commaToDot (pyOrZero s)) with
  | some v => v
  | none => .fin 0

/-! ## Python `repr`/`str` of floats and `json.dumps` -/

/-- Decimal digit string of a natural number. -/
def natRepr (n : Nat) : String := toString n

/-- Best-effort Python `repr` of a finite float modelled as a rational: exact
decimal expansion with at least one fractional digit (`500.0`, `500.5`). -/
def ratPyRepr (q : Rat) : String :=
  if q.den = 1 then toString q.num ++ ".0"
  else
    match (List.range 400).find? (fun k => 10 ^ (k + 1) % q.den = 0) with
    | some k =>
      let k1 := k + 1
      let m : Int := q.num * ((10 ^ k1 / q.den : Nat) : Int)
      let sign := if m < 0 then "-" else ""
      let ds := (natRepr m.natAbs).data
      let padded := if ds.length ≤ k1 then List.replicate (k1 + 1 - ds.length) '0' ++ ds else ds
      sign ++ String.mk (padded.take (padded.length - k1)) ++ "." ++
        String.mk (padded.drop (padded.length - k1))
    | none => toString q

/-- Python `str()` of a float value (used by the f-strings in the readable
payload). -/
def pyFloatStr : PyFloatVal → String
  | .fin q => ratPyRepr q
  | .inf false => "inf"
  | .inf true => "-inf"
  | .nan => "nan"

/-- `json.dumps` rendering of a float value. -/
def jsonNumRepr : PyFloatVal → String
  | .fin q => ratPyRepr q
  | .inf false => "Infinity"
  | .inf true => "-Infinity"
  | .nan => "NaN"

/-- A JSON value as produced by the payload builders: a string or a number. -/
inductive JVal : Type
  | str (s : String)
  | num (v : PyFloatVal)
deriving DecidableEq

def hexDigit (n : Nat) : Char :=
  if n < 10 then Char.ofNat (48 + n) else Char.ofNat (87 + n)

def hex4 (n : Nat) : String :=
  String.mk [hexDigit (n / 4096 % 16), hexDigit (n / 256 % 16),
             hexDigit (n / 16 % 16), hexDigit (n % 16)]

/-- Per-character escaping of `json.dumps(..., ensure_ascii=False)`: only the
quote, the backslash and control characters are escaped; everything else —
non-ASCII included — is emitted literally. -/
def jsonEscapeChar (c : Char) : String :=
  if c = '"' then "\\\""
  else if c = '\\' then "\\\\"
  else if c = '\n' then "\\n"
  else if c = '\r' then "\\r"
  else if c = '\t' then "\\t"
  else if c.toNat = 8 then "\\b"
  else if c.toNat = 12 then "\\f"
  else if c.toNat < 32 then "\\u" ++ hex4 c.toNat
  else String.singleton c

def jsonEscape (s : String) : String := String.join (s.data.map jsonEscapeChar)

def jsonStrLit (s : String) : String := "\"" ++ jsonEscape s ++ "\""

def jsonValStr : JVal → String
  | .str s => jsonStrLit s
  | .num v => jsonNumRepr v

/-- `json.dumps` of an object with the default separators, keys in insertion
order, `ensure_ascii=False`. -/
def jsonDumps (obj : List (String × JVal)) : String :=
  "\x7b" ++ ", ".intercalate (obj.map (fun kv => jsonStrLit kv.1 ++ ": " ++ jsonValStr kv.2)) ++ "\x7d"

/-! ## Payload builders -/

def SCHEMA : String := "arrakis.lab.qrlabel.v2"

/-- The dict literal of `make_payload_biochar`, keys in insertion order.
A `None` optional argument is modelled as `""` (the source collapses it with
`or ""` before use). -/
def biocharObj (sample_name producer biomass reactor_type : String)
    (pyro_temp_c residence_time_min : PyFloatVal)
    (production_date notes : String) : List (String × JVal) :=
  [("kind", .str "biochar"),
   ("schema", .str SCHEMA),
   ("sample_name", .str sample_name),
   ("producer", .str producer),
   ("biomass", .str biomass),
   ("reactor_type", .str reactor_type),
   ("pyro_temp_C", .num pyro_temp_c),
   ("residence_time_min", .num residence_time_min),
   ("production_date", .str (_normalize_date production_date)),
   ("notes", .str notes)]

def make_payload_biochar (sample_name producer biomass reactor_type : String)
    (pyro_temp_c residence_time_min : PyFloatVal)
    (production_date notes : String) : String :=
  jsonDumps (biocharObj sample_name producer biomass reactor_type
    pyro_temp_c residence_time_min production_date notes)

/-- The dict literal of `make_payload_biomass`, keys in insertion order. -/
def biomassObj (biomass_name origin collection_date notes : String) :
    List (String × JVal) :=
  [("kind", .str "biomass"),
   ("schema", .str SCHEMA),
   ("biomass_name", .str biomass_name),
   ("origin", .str origin),
   ("collection_date", .str (_normalize_date collection_date)),
   ("notes", .str notes)]

def make_payload_biomass (biomass_name origin collection_date notes : String) : String :=
  jsonDumps (biomassObj biomass_name origin collection_date notes)

/-- The `lines` list of `make_text_biochar`: six fixed lines, then the
production date when non-empty after normalization, then the notes when
non-empty. -/
def biocharTextLines (sample_name producer biomass reactor_type : String)
    (pyro_temp_c residence_time_min : PyFloatVal)
    (production_date notes : String) : List String :=
  let pd := _normalize_date production_date
  ["Nome da amostra: " ++ sample_name,
   "Biomassa: " ++ biomass,
   "Quem produziu: " ++ producer,
   "Tipo de reator: " ++ reactor_type,
   "Temperatura de pirólise (°C): " ++ pyFloatStr pyro_temp_c,
   "Tempo de residência (min): " ++ pyFloatStr residence_time_min]
  ++ (if pd ≠ "" then ["Data de produção: " ++ pd] else [])
  ++ (if notes ≠ "" then ["Notas: " ++ notes] else [])

def make_text_biochar (sample_name producer biomass reactor_type : String)
    (pyro_temp_c residence_time_min : PyFloatVal)
    (production_date notes : String) : String :=
  "\n".intercalate (biocharTextLines sample_name producer biomass reactor_type
    pyro_temp_c residence_time_min production_date notes)

/-- The `lines` list of `make_text_biomass`. -/
def biomassTextLines (biomass_name origin collection_date notes : String) : List String :=
  let cd := _normalize_date collection_date
  ["Nome da biomassa: " ++ biomass_name,
   "Origem: " ++ origin]
  ++ (if cd ≠ "" then ["Data de coleta: " ++ cd] else [])
  ++ (if notes ≠ "" then ["Notas: " ++ notes] else [])

def make_text_biomass (biomass_name origin collection_date notes : String) : String :=
  "\n".intercalate (biomassTextLines biomass_name origin collection_date notes)

/-! ## QR geometry and the label renderer -/

/-- Byte-mode data capacity of QR versions 1..40 at error-correction level M
(the `qrcode` library's capacity table for `ERROR_CORRECT_M`). -/
def qrCapTable : List Nat :=
  [14, 26, 42, 62, 84, 106, 122, 152, 180, 213,
   251, 287, 331, 362, 412, 450, 504, 560, 624, 666,
   711, 779, 857, 911, 997, 1059, 1125, 1190, 1264, 1370,
   1452, 1538, 1628, 1722, 1809, 1911, 1989, 2099, 2213, 2331]

def qrByteCapacityM (v : Nat) : Nat := qrCapTable.getD (v - 1) 0

/-- `qr.make(fit=True)` with `version=None`: the smallest version 1..40 whose
capacity holds `n` payload bytes; `none` models `DataOverflowError`. -/
def qrSelectVersion (n : Nat) : Option Nat :=
  ((List.range 40).map (fun i => i + 1)).find? (fun v => n ≤ qrByteCapacityM v)

inductive QrError : Type
  | dataOverflow
deriving DecidableEq, Repr

/-- Python `int()` on a float value: truncation toward zero. -/
def pyIntTrunc (q : Rat) : Int := Int.tdiv q.num q.den

/-- The geometry of a rendered label, as computed by `render_label_pil`. -/
structure Label where
  width : Nat
  height : Int
  qr_version : Nat
  qr_natural_w : Nat
  qr_scale : Rat
  qr_w : Int
  qr_h : Int
  qr_x : Int
  qr_y : Int
  title_lines : List String
  title_h : Int
deriving DecidableEq, Repr

/-- `_wrap_title_lines` from the source. `measure line = (w, h)` models
`draw.textbbox((0,0), line, font)` as `(bbox[2], bbox[3]-bbox[1])`, and
`fillWrap t w` models `textwrap.fill(t, width=w).splitlines()`; both depend on
the loaded font resource and the stdlib wrapper, which are external to the
repository, so they are parameters of the model. -/
def _wrap_title_lines (measure : String → Int × Int) (fillWrap : String → Nat → List String)
    (title_text : String) (label_width_px : Nat) (padding : Nat) (line_gap : Int) :
    List String × Int :=
  let text_w := (measure title_text).1
  let title_lines :=
    if text_w > (label_width_px : Int) - 2 * (padding : Int) then
      let est_chars : Nat :=
        (max 18 (pyIntTrunc (mkRat ((title_text.length : Int) * ((label_width_px : Int) - 2 * (padding : Int))) 1 / (text_w : Rat)))).toNat
      fillWrap title_text est_chars
    else [title_text]
  let heights := title_lines.map (fun line => (measure line).2)
  (title_lines, heights.sum + line_gap * ((title_lines.length : Int) - 1))

/-- The `y` accumulator of the title-drawing loop in `render_label_pil`:
each line advances by its height, plus the line gap except after the last. -/
def titleLoopY (measure : String → Int × Int) : List String → Int → Int
  | [], y => y
  | [l], y => y + (measure l).2
  | l :: l2 :: ls, y => titleLoopY measure (l2 :: ls) (y + (measure l).2 + 8)

/-- `render_label_pil` from the source: QR encoding (automatic version fit,
level-M error correction), title wrapping, downscale-to-fit of the QR bitmap,
and centered composition on a white canvas. -/
def render_label_pil (measure : String → Int × Int) (fillWrap : String → Nat → List String)
    (title_left title_right qr_payload : String)
    (label_width_px : Nat := 800) (qr_box_size : Nat := 10) (border : Nat := 4) :
    Except QrError Label :=
  match qrSelectVersion qr_payload.utf8ByteSize with
  | none => .error .dataOverflow
  | some v =>
    let qr_nat_w : Nat := (17 + 4 * v + 2 * border) * qr_box_size
    let padding : Nat := 30
    let line_gap : Int := 8
    let title_text := if title_right ≠ "" then title_left ++ " | " ++ title_right else title_left
    let wl := _wrap_title_lines measure fillWrap title_text label_width_px padding line_gap
    let qr_scale : Rat := min (mkRat ((label_width_px : Int) - 2 * (padding : Int)) 1 / (qr_nat_w : Rat)) 1
    let new_w : Int := pyIntTrunc ((qr_nat_w : Rat) * qr_scale)
    let new_h : Int := pyIntTrunc ((qr_nat_w : Rat) * qr_scale)
    let total_h : Int := (padding : Int) + wl.2 + (padding : Int) + new_h + (padding : Int)
    let y_end := titleLoopY measure wl.1 (padding : Int)
    .ok { width := label_width_px
          height := total_h
          qr_version := v
          qr_natural_w := qr_nat_w
          qr_scale := qr_scale
          qr_w := new_w
          qr_h := new_h
          qr_x := Int.fdiv ((label_width_px : Int) - new_w) 2
          qr_y := y_end + (padding : Int)
          title_lines := wl.1
          title_h := wl.2 }

/-! ## The `generate_preview` event handler -/

/-- The biochar tab's form fields (raw text field values; a `None` value is
modelled as `""`). -/
structure BiocharForm where
  sample_name : String
  biomass : String
  producer : String
  reactor : String
  prod_date : String
  pyroC : String
  res_min : String
  notes : String
deriving DecidableEq, Repr

/-- The biomass tab's form fields. -/
structure BiomassForm where
  bm_name : String
  origin : String
  coll_date : String
  notes : String
deriving DecidableEq, Repr

/-- Outcome of one `generate_preview` call: a produced payload and label,
an inline `snack` notice after which the handler returns early (no payload and
no image produced), or an exception escaping the handler uncaught. -/
inductive GenResult : Type
  | ok (payload : String) (label : Label)
  | notice (msg : String)
  | crash (e : QrError)
deriving DecidableEq, Repr

/-- `use_text = (dd_format.value or "Informações") == "Informações"`. -/
def useText (fmt : String) : Bool := (if fmt = "" then "Informações" else fmt) = "Informações"

/-- The biochar branch of `generate_preview` (`tab.selected_index == 0`). -/
def generate_preview_biochar (measure : String → Int × Int)
    (fillWrap : String → Nat → List String) (fmt : String) (f : BiocharForm) : GenResult :=
  let sn := pyStrip (_titlecase f.sample_name)
  let bm := pyStrip (_titlecase f.biomass)
  if sn = "" then .notice "Nome da amostra é obrigatório para Biochar."
  else
    let producer := pyStrip (_titlecase f.producer)
    let reactor_type := pyStrip (_titlecase f.reactor)
    let prod_date := _normalize_date f.prod_date
    let pyroC := pyFloatOr0 f.pyroC
    let res_min := pyFloatOr0 f.res_min
    let notes := f.notes
    let payload :=
      if useText fmt then
        make_text_biochar sn producer bm reactor_type pyroC res_min prod_date notes
      else
        make_payload_biochar sn producer bm reactor_type pyroC res_min prod_date notes
    let title_left := _titlecase sn
    let title_right := _titlecase bm
    match render_label_pil measure fillWrap title_left title_right payload 800 10 4 with
    | .error e => .crash e
    | .ok lab => .ok payload lab

/-- The biomass branch of `generate_preview` (`tab.selected_index == 1`). -/
def generate_preview_biomass (measure : String → Int × Int)
    (fillWrap : String → Nat → List String) (fmt : String) (g : BiomassForm) : GenResult :=
  let bn := pyStrip (_titlecase g.bm_name)
  let og := pyStrip (_titlecase g.origin)
  if bn = "" ∨ og = "" then .notice "Nome da biomassa e Origem são obrigatórios para Biomassa."
  else
    let coll_date := _normalize_date g.coll_date
    let notes := g.notes
    let payload :=
      if useText fmt then make_text_biomass bn og coll_date notes
      else make_payload_biomass bn og coll_date notes
    let title_left := _titlecase bn
    let title_right := _titlecase og
    match render_label_pil measure fillWrap title_left title_right payload 800 10 4 with
    | .error e => .crash e
    | .ok lab => .ok payload lab

/-! ## Spec-worded title-casing (for comparison with the source `_titlecase`) -/

/-- Token transformation in the words of the spec, with "entirely uppercase"
read strictly as "every character is an uppercase letter". -/
def strictTitleTok (p : String) : String :=
  if p.length ≤ 3 ∧ (∀ c ∈ p.data, c.isUpper = true) then p
  else pyCapToken p

/-- Title-casing in the words of the claim (strict reading): split into
whitespace-separated tokens, preserve short entirely-uppercase tokens,
capitalize the rest, rejoin with single spaces. -/
def strictTitlecase (s : String) : String :=
  " ".intercalate ((pySplit s).map strictTitleTok)

/-- Token transformation in the words of the amended claim: a token of length
at most 3 is preserved when it contains at least one letter and all of its
letters are uppercase (Python `str.isupper` semantics); every other token gets
its first character uppercased and the remainder lowercased. -/
def specTitleTok (p : String) : String :=
  if p.length ≤ 3 ∧ (∃ c ∈ p.data, c.isAlpha = true) ∧ (∀ c ∈ p.data, c.isAlpha = true → c.isUpper = true)
  then p
  else pyCapToken p

/-- Title-casing in the words of the amended claim. -/
def specTitlecase (s : String) : String :=
  " ".intercalate ((pySplit s).map specTitleTok)

/-! ## Helper lemmas -/

theorem dropWhile_eq_nil_iff_all (p : Char → Bool) (l : List Char) :
    l.dropWhile p = [] ↔ ∀ c ∈ l, p c = true := by
  induction l with
  | nil => simp
  | cons a l ih =>
    by_cases h : p a
    · simp [List.dropWhile, h, ih]
    · simp [List.dropWhile, h]

theorem mk_eq_empty_iff (l : List Char) : String.mk l = "" ↔ l = [] := by
  constructor
  · intro h
    have := congrArg String.data h
    simpa using this
  · intro h; rw [h]

theorem pyStrip_eq_empty_iff (s : String) :
    pyStrip s = "" ↔ ∀ c ∈ s.data, isPySpace c = true := by
  rw [pyStrip, mk_eq_empty_iff]
  rw [List.reverse_eq_nil_iff, dropWhile_eq_nil_iff_all]
  constructor
  · intro h c hc
    have hsplit : c ∈ s.data.takeWhile isPySpace ++ s.data.dropWhile isPySpace := by
      rw [List.takeWhile_append_dropWhile]; exact hc
    rcases List.mem_append.mp hsplit with h1 | h2
    · exact List.mem_takeWhile_imp h1
    · exact h c (by simpa using h2)
  · intro h c hc
    have hc2 : c ∈ s.data.dropWhile isPySpace := by simpa using hc
    exact h c ((List.dropWhile_sublist isPySpace).subset hc2)

theorem pySplitAux_all_space (l : List Char) (h : ∀ c ∈ l, isPySpace c = true) :
    pySplitAux l [] = [] := by
  induction l with
  | nil => rfl
  | cons a l ih =>
    have ha : isPySpace a = true := h a (by simp)
    simp only [pySplitAux, ha, if_true]
    exact ih (fun c hc => h c (by simp [hc]))

theorem titlecase_all_space (s : String) (h : ∀ c ∈ s.data, isPySpace c = true) :
    _titlecase s = "" := by
  by_cases hs : s = ""
  · rw [_titlecase, if_pos hs, hs]
  · rw [_titlecase, if_neg hs]
    rw [pySplit, pySplitList, pySplitAux_all_space s.data h]
    rfl

theorem pyStrip_titlecase_of_strip_empty (s : String) (h : pyStrip s = "") :
    pyStrip (_titlecase s) = "" := by
  rw [titlecase_all_space s ((pyStrip_eq_empty_iff s).mp h)]
  rfl

/-! ## Claims -/

/-- C1: building the STRUCTURED payload yields a JSON object with the fixed
schema identifier `"arrakis.lab.qrlabel.v2"`, a `kind` discriminator matching
the record variant (`"biochar"`/`"biomass"`), every record field verbatim
after normalization (the date normalized, all other fields exactly as passed),
and non-ASCII characters preserved literally by the serializer (every
character with code point ≥ 128 is emitted unescaped). -/
theorem claim1_structured_payload :
    ∀ (sn pr bm rt : String) (tC rm : PyFloatVal) (pd nts bn og cd nt2 : String),
    (∀ c : Char, 128 ≤ c.toNat → jsonEscapeChar c = String.singleton c)
    ∧ make_payload_biochar sn pr bm rt tC rm pd nts
        = jsonDumps (biocharObj sn pr bm rt tC rm pd nts)
    ∧ (biocharObj sn pr bm rt tC rm pd nts).lookup "schema" = some (.str "arrakis.lab.qrlabel.v2")
    ∧ (biocharObj sn pr bm rt tC rm pd nts).lookup "kind" = some (.str "biochar")
    ∧ (biocharObj sn pr bm rt tC rm pd nts).lookup "sample_name" = some (.str sn)
    ∧ (biocharObj sn pr bm rt tC rm pd nts).lookup "producer" = some (.str pr)
    ∧ (biocharObj sn pr bm rt tC rm pd nts).lookup "biomass" = some (.str bm)
    ∧ (biocharObj sn pr bm rt tC rm pd nts).lookup "reactor_type" = some (.str rt)
    ∧ (biocharObj sn pr bm rt tC rm pd nts).lookup "pyro_temp_C" = some (.num tC)
    ∧ (biocharObj sn pr bm rt tC rm pd nts).lookup "residence_time_min" = some (.num rm)
    ∧ (biocharObj sn pr bm rt tC rm pd nts).lookup "production_date"
        = some (.str (_normalize_date pd))
    ∧ (biocharObj sn pr bm rt tC rm pd nts).lookup "notes" = some (.str nts)
    ∧ make_payload_biomass bn og cd nt2 = jsonDumps (biomassObj bn og cd nt2)
    ∧ (biomassObj bn og cd nt2).lookup "schema" = some (.str "arrakis.lab.qrlabel.v2")
    ∧ (biomassObj bn og cd nt2).lookup "kind" = some (.str "biomass")
    ∧ (biomassObj bn og cd nt2).lookup "biomass_name" = some (.str bn)
    ∧ (biomassObj bn og cd nt2).lookup "origin" = some (.str og)
    ∧ (biomassObj bn og cd nt2).lookup "collection_date" = some (.str (_normalize_date cd))
    ∧ (biomassObj bn og cd nt2).lookup "notes" = some (.str nt2) := by
  intro sn pr bm rt tC rm pd nts bn og cd nt2
  refine ⟨?_, rfl, rfl, rfl, rfl, rfl, rfl, rfl, rfl, rfl, rfl, rfl, rfl, rfl, rfl, rfl, rfl, rfl, rfl⟩
  intro c hc
  have h1 : ¬(c = '"') := by rintro rfl; exact absurd hc (by decide)
  have h2 : ¬(c = '\\') := by rintro rfl; exact absurd hc (by decide)
  have h3 : ¬(c = '\n') := by rintro rfl; exact absurd hc (by decide)
  have h4 : ¬(c = '\r') := by rintro rfl; exact absurd hc (by decide)
  have h5 : ¬(c = '\t') := by rintro rfl; exact absurd hc (by decide)
  have h6 : ¬(c.toNat = 8) := by omega
  have h7 : ¬(c.toNat = 12) := by omega
  have h8 : ¬(c.toNat < 32) := by omega
  simp [jsonEscapeChar, h1, h2, h3, h4, h5, h6, h7, h8]

/-- Witness for C1 at a concrete input: the non-ASCII character `ç` is kept
literal by the JSON escaper. -/
theorem claim1_structured_payload_witness :
    jsonEscapeChar 'ç' = String.singleton 'ç' :=
  (claim1_structured_payload "a" "b" "c" "d" (.fin 0) (.fin 0) "" "" "e" "f" "" "").1
    'ç' (by decide)

/-- C2: for either record kind, when the required field is empty after
trimming (sample name for biochar; biomass name or origin for biomass),
`generate_preview` stops with the inline validation notice and produces
neither a payload nor a label image (the `notice` outcome carries only the
message). -/
theorem claim2_empty_required_field :
    ∀ (measure : String → Int × Int) (fillWrap : String → Nat → List String)
      (fmt : String) (f : BiocharForm) (g : BiomassForm),
    (pyStrip f.sample_name = "" →
      generate_preview_biochar measure fillWrap fmt f
        = .notice "Nome da amostra é obrigatório para Biochar.")
    ∧ ((pyStrip g.bm_name = "" ∨ pyStrip g.origin = "") →
      generate_preview_biomass measure fillWrap fmt g
        = .notice "Nome da biomassa e Origem são obrigatórios para Biomassa.") := by
  intro measure fillWrap fmt f g
  constructor
  · intro h
    have hsn := pyStrip_titlecase_of_strip_empty _ h
    simp [generate_preview_biochar, hsn]
  · intro h
    rcases h with h | h
    · have hbn := pyStrip_titlecase_of_strip_empty _ h
      simp [generate_preview_biomass, hbn]
    · have hog := pyStrip_titlecase_of_strip_empty _ h
      simp [generate_preview_biomass, hog]

/-- Witness for C2: concrete whitespace-only required fields hit the notices
for both record kinds. -/
theorem claim2_empty_required_field_witness :
    generate_preview_biochar (fun _ => (0, 0)) (fun _ _ => []) "json"
      ⟨"  ", "euca", "p", "r", "", "500", "30", ""⟩
      = .notice "Nome da amostra é obrigatório para Biochar."
    ∧ generate_preview_biomass (fun _ => (0, 0)) (fun _ _ => []) "Informações"
      ⟨"euca", " ", "", ""⟩
      = .notice "Nome da biomassa e Origem são obrigatórios para Biomassa." := by
  constructor
  · exact (claim2_empty_required_field (fun _ => (0, 0)) (fun _ _ => []) "json"
      ⟨"  ", "euca", "p", "r", "", "500", "30", ""⟩ ⟨"", "", "", ""⟩).1 (by decide)
  · exact (claim2_empty_required_field (fun _ => (0, 0)) (fun _ _ => []) "Informações"
      ⟨"", "", "", "", "", "", "", ""⟩ ⟨"euca", " ", "", ""⟩).2 (Or.inr (by decide))

/-- C3 counterexample: `_normalize_date` strips surrounding whitespace, so the
non-empty, non-date input `" March 5"` is NOT returned unchanged, contradicting
the claim that any other non-empty string passes through unchanged. -/
theorem claim3_counterexample : _normalize_date " March 5" ≠ " March 5" := by decide

theorem digit_not_space (c : Char) (h : isDig c = true) : isPySpace c = false := by
  simp only [isDig, Bool.and_eq_true, decide_eq_true_eq] at h
  simp only [isPySpace, Bool.or_eq_false_iff, decide_eq_false_iff_not]
  refine ⟨⟨⟨⟨⟨?_, ?_⟩, ?_⟩, ?_⟩, ?_⟩, ?_⟩ <;>
    (rintro rfl; revert h; decide)

/-- C3 (amended): `"05/03/2024"` and `"05-03-2024"` normalize to
`"2024-03-05"` (for arbitrary digits, `DD/MM/YYYY` and `DD-MM-YYYY` are
rearranged to `YYYY-MM-DD`); any input already of the form `YYYY-MM-DD` is
returned unchanged; any other input is returned stripped of surrounding ASCII
whitespace but otherwise unchanged (so an already-stripped string such as
`"March 5"` is unchanged, and empty or all-whitespace input yields `""`). -/
theorem claim3_normalize_date_amended :
    _normalize_date "05/03/2024" = "2024-03-05"
    ∧ _normalize_date "05-03-2024" = "2024-03-05"
    ∧ _normalize_date "" = ""
    ∧ _normalize_date "March 5" = "March 5"
    ∧ (∀ s, pyStrip s = "" → _normalize_date s = "")
    ∧ (∀ y1 y2 y3 y4 m1 m2 d1 d2 : Char,
        isDig y1 = true → isDig y2 = true → isDig y3 = true → isDig y4 = true →
        isDig m1 = true → isDig m2 = true → isDig d1 = true → isDig d2 = true →
        _normalize_date (String.mk [y1, y2, y3, y4, '-', m1, m2, '-', d1, d2])
          = String.mk [y1, y2, y3, y4, '-', m1, m2, '-', d1, d2])
    ∧ (∀ d1 d2 m1 m2 y1 y2 y3 y4 : Char,
        isDig d1 = true → isDig d2 = true → isDig m1 = true → isDig m2 = true →
        isDig y1 = true → isDig y2 = true → isDig y3 = true → isDig y4 = true →
        _normalize_date (String.mk [d1, d2, '/', m1, m2, '/', y1, y2, y3, y4])
          = String.mk [y1, y2, y3, y4, '-', m1, m2, '-', d1, d2])
    ∧ (∀ d1 d2 m1 m2 y1 y2 y3 y4 : Char,
        isDig d1 = true → isDig d2 = true → isDig m1 = true → isDig m2 = true →
        isDig y1 = true → isDig y2 = true → isDig y3 = true → isDig y4 = true →
        _normalize_date (String.mk [d1, d2, '-', m1, m2, '-', y1, y2, y3, y4])
          = String.mk [y1, y2, y3, y4, '-', m1, m2, '-', d1, d2])
    ∧ (∀ s, date_ymd (pyStrip s).data = false →
        date_dmy '/' (pyStrip s).data = none →
        date_dmy '-' (pyStrip s).data = none →
        _normalize_date s = pyStrip s) := by
  refine ⟨by decide, by decide, by decide, by decide, ?_, ?_, ?_, ?_, ?_⟩
  · intro s h
    simp [_normalize_date, h]
  · intro y1 y2 y3 y4 m1 m2 d1 d2 h1 h2 h3 h4 h5 h6 h7 h8
    have hstrip : pyStrip (String.mk [y1, y2, y3, y4, '-', m1, m2, '-', d1, d2])
        = String.mk [y1, y2, y3, y4, '-', m1, m2, '-', d1, d2] := by
      simp [pyStrip, List.dropWhile_cons, digit_not_space _ h1, digit_not_space _ h8]
    simp [_normalize_date, hstrip, mk_eq_empty_iff, date_ymd, h1, h2, h3, h4, h5, h6, h7, h8]
  · intro d1 d2 m1 m2 y1 y2 y3 y4 h1 h2 h3 h4 h5 h6 h7 h8
    have hm2 : ¬(m2 = '-') := by rintro rfl; revert h4; decide
    have hstrip : pyStrip (String.mk [d1, d2, '/', m1, m2, '/', y1, y2, y3, y4])
        = String.mk [d1, d2, '/', m1, m2, '/', y1, y2, y3, y4] := by
      simp [pyStrip, List.dropWhile_cons, digit_not_space _ h1, digit_not_space _ h8]
    simp [_normalize_date, hstrip, mk_eq_empty_iff, date_ymd, date_dmy,
      h1, h2, h3, h4, h5, h6, h7, h8, hm2]
  · intro d1 d2 m1 m2 y1 y2 y3 y4 h1 h2 h3 h4 h5 h6 h7 h8
    have hm2 : ¬(m2 = '-') := by rintro rfl; revert h4; decide
    have hstrip : pyStrip (String.mk [d1, d2, '-', m1, m2, '-', y1, y2, y3, y4])
        = String.mk [d1, d2, '-', m1, m2, '-', y1, y2, y3, y4] := by
      simp [pyStrip, List.dropWhile_cons, digit_not_space _ h1, digit_not_space _ h8]
    simp [_normalize_date, hstrip, mk_eq_empty_iff, date_ymd, date_dmy,
      h1, h2, h3, h4, h5, h6, h7, h8, hm2]
  · intro s hy hs hd
    by_cases ht : pyStrip s = ""
    · simp [_normalize_date, ht]
    · simp [_normalize_date, ht, hy, hs, hd]

/-- Witness for C3 (amended): the universal clauses applied at concrete
digits and at the pass-through input `"March 5"`. -/
theorem claim3_normalize_date_amended_witness :
    _normalize_date "31/12/2099" = "2099-12-31"
    ∧ _normalize_date " March 5" = pyStrip " March 5" := by
  constructor
  · exact (claim3_normalize_date_amended.2.2.2.2.2.2.1) '3' '1' '1' '2' '2' '0' '9' '9'
      (by decide) (by decide) (by decide) (by decide)
      (by decide) (by decide) (by decide) (by decide)
  · exact (claim3_normalize_date_amended.2.2.2.2.2.2.2.2) " March 5"
      (by decide) (by decide) (by decide)

/-- C4: the READABLE payload lists biochar fields in the fixed order sample
name, biomass, producer, reactor type, pyrolysis temperature, residence time,
then optionally production date and notes; biomass records list biomass name,
origin, then optionally collection date and notes; empty optional fields
produce no line at all, so with empty date and notes a biochar record yields
exactly the 6 fixed lines and a biomass record exactly 2. -/
theorem claim4_readable_order :
    ∀ (sn pr bm rt : String) (tC rm : PyFloatVal) (pd nts bn og cd nt2 : String),
    make_text_biochar sn pr bm rt tC rm pd nts
      = "\n".intercalate (biocharTextLines sn pr bm rt tC rm pd nts)
    ∧ (_normalize_date pd = "" → nts = "" →
        biocharTextLines sn pr bm rt tC rm pd nts
          = ["Nome da amostra: " ++ sn,
             "Biomassa: " ++ bm,
             "Quem produziu: " ++ pr,
             "Tipo de reator: " ++ rt,
             "Temperatura de pirólise (°C): " ++ pyFloatStr tC,
             "Tempo de residência (min): " ++ pyFloatStr rm]
        ∧ (biocharTextLines sn pr bm rt tC rm pd nts).length = 6)
    ∧ (_normalize_date pd ≠ "" → nts ≠ "" →
        biocharTextLines sn pr bm rt tC rm pd nts
          = ["Nome da amostra: " ++ sn,
             "Biomassa: " ++ bm,
             "Quem produziu: " ++ pr,
             "Tipo de reator: " ++ rt,
             "Temperatura de pirólise (°C): " ++ pyFloatStr tC,
             "Tempo de residência (min): " ++ pyFloatStr rm,
             "Data de produção: " ++ _normalize_date pd,
             "Notas: " ++ nts])
    ∧ make_text_biomass bn og cd nt2 = "\n".intercalate (biomassTextLines bn og cd nt2)
    ∧ (_normalize_date cd = "" → nt2 = "" →
        biomassTextLines bn og cd nt2
          = ["Nome da biomassa: " ++ bn, "Origem: " ++ og]
        ∧ (biomassTextLines bn og cd nt2).length = 2)
    ∧ (_normalize_date cd ≠ "" → nt2 ≠ "" →
        biomassTextLines bn og cd nt2
          = ["Nome da biomassa: " ++ bn, "Origem: " ++ og,
             "Data de coleta: " ++ _normalize_date cd,
             "Notas: " ++ nt2]) := by
  intro sn pr bm rt tC rm pd nts bn og cd nt2
  refine ⟨rfl, ?_, ?_, rfl, ?_, ?_⟩
  · intro h1 h2
    constructor
    · simp [biocharTextLines, h1, h2]
    · simp [biocharTextLines, h1, h2]
  · intro h1 h2
    simp [biocharTextLines, h1, h2]
  · intro h1 h2
    constructor
    · simp [biomassTextLines, h1, h2]
    · simp [biomassTextLines, h1, h2]
  · intro h1 h2
    simp [biomassTextLines, h1, h2]

/-- Witness for C4 at the spec's concrete example: a biochar record with
empty date and notes yields exactly the 6 fixed lines. -/
theorem claim4_readable_order_witness :
    biocharTextLines "X" "P" "Y" "R" (.fin 500) (.fin 30) "" ""
      = ["Nome da amostra: X",
         "Biomassa: Y",
         "Quem produziu: P",
         "Tipo de reator: R",
         "Temperatura de pirólise (°C): 500.0",
         "Tempo de residência (min): 30.0"]
    ∧ (biocharTextLines "X" "P" "Y" "R" (.fin 500) (.fin 30) "" "").length = 6 := by
  have h := (claim4_readable_order "X" "P" "Y" "R" (.fin 500) (.fin 30) "" "" "" "" "" "").2.1
    (by decide) (by decide)
  refine ⟨?_, h.2⟩
  rw [h.1]
  decide

/-- C5 counterexample: the token `CHAR` has four characters, so the acronym
rule (length at most 3) does not apply and the code produces
`"Bio Char Sample"`, not the claimed `"Bio CHAR Sample"`. -/
theorem claim5_counterexample : ¬ (_titlecase "bio CHAR sample" = "Bio CHAR Sample") := by
  decide

/-- C5 (amended): `"bio CHAR sample"` title-cases to `"Bio Char Sample"`
(`CHAR` exceeds the 3-character acronym limit and is down-cased), a short
all-caps token such as `ASH` is preserved, and `"wood ash"` yields
`"Wood Ash"`. -/
theorem claim5_titlecase_amended :
    _titlecase "bio CHAR sample" = "Bio Char Sample"
    ∧ _titlecase "bio ASH sample" = "Bio ASH Sample"
    ∧ _titlecase "wood ash" = "Wood Ash" := by
  refine ⟨by decide, by decide, by decide⟩

/-- C6 counterexample: the 3-character token `12A` is not entirely uppercase
(its digits are not uppercase letters), so the claim predicts `"12a"`; Python
`str.isupper` ignores uncased characters, and the code keeps `"12A"`. -/
theorem claim6_counterexample : strictTitlecase "12A" ≠ _titlecase "12A" := by decide

theorem titleParts_eq_map (l : List String) :
    titleParts l = l.map (fun p => if p.length ≤ 3 && pyIsUpper p then p else pyCapToken p) := by
  induction l with
  | nil => rfl
  | cons p ps ih => simp [titleParts, ih]

theorem titleTok_eq_specTitleTok (p : String) :
    (if p.length ≤ 3 && pyIsUpper p then p else pyCapToken p) = specTitleTok p := by
  rw [specTitleTok]
  by_cases h : p.length ≤ 3 ∧ (∃ c ∈ p.data, c.isAlpha = true) ∧ (∀ c ∈ p.data, c.isAlpha = true → c.isUpper = true)
  · rw [if_pos h, if_pos]
    simp only [pyIsUpper, Bool.and_eq_true, decide_eq_true_eq, List.any_eq_true,
      List.all_eq_true, Bool.or_eq_true, Bool.not_eq_true']
    refine ⟨h.1, h.2.1, ?_⟩
    intro c hc
    rcases Bool.eq_false_or_eq_true c.isAlpha with ha | ha
    · exact Or.inr (h.2.2 c hc ha)
    · exact Or.inl ha
  · rw [if_neg h, if_neg]
    simp only [pyIsUpper, Bool.and_eq_true, decide_eq_true_eq, List.any_eq_true,
      List.all_eq_true, Bool.or_eq_true, Bool.not_eq_true']
    intro hcon
    apply h
    refine ⟨hcon.1, hcon.2.1, ?_⟩
    intro c hc ha
    rcases hcon.2.2 c hc with h1 | h1
    · rw [ha] at h1; exact absurd h1 (by decide)
    · exact h1

/-- C6 (amended): for every input string, `_titlecase` splits it into
whitespace-separated tokens, preserves unchanged every token of length at
most 3 that contains at least one letter and all of whose letters are
uppercase (Python `str.isupper` semantics — a short token such as `12A` with
digits and uppercase letters is also preserved), renders every other token
with its first character uppercased and the remainder lowercased, and rejoins
the tokens with single spaces. -/
theorem claim6_titlecase_amended (s : String) : _titlecase s = specTitlecase s := by
  by_cases hs : s = ""
  · subst hs; decide
  · rw [_titlecase, if_neg hs, specTitlecase, titleParts_eq_map]
    congr 1
    exact List.map_congr_left (fun p _ => titleTok_eq_specTitleTok p)

theorem utf8go_append (l1 l2 : List Char) :
    String.utf8ByteSize.go (l1 ++ l2)
      = String.utf8ByteSize.go l1 + String.utf8ByteSize.go l2 := by
  induction l1 with
  | nil => simp [String.utf8ByteSize.go]
  | cons c cs ih =>
    simp only [List.cons_append, String.utf8ByteSize.go, List.append_eq, ih]
    omega

theorem utf8go_replicate (n : Nat) (c : Char) :
    String.utf8ByteSize.go (List.replicate n c) = n * c.utf8Size := by
  induction n with
  | zero => simp [List.replicate, String.utf8ByteSize.go]
  | succ k ih =>
    simp only [List.replicate_succ, String.utf8ByteSize.go, ih]
    ring

theorem utf8_mk (l : List Char) :
    (String.mk l).utf8ByteSize = String.utf8ByteSize.go l := rfl

theorem utf8_append (a b : String) :
    (a ++ b).utf8ByteSize = a.utf8ByteSize + b.utf8ByteSize := by
  cases a with | mk la =>
  cases b with | mk lb =>
  show (String.mk (la ++ lb)).utf8ByteSize = _
  rw [utf8_mk, utf8_mk, utf8_mk, utf8go_append]

theorem intercalate_go_utf8 (s : String) (as : List String) :
    ∀ acc : String, (String.intercalate.go acc s as).utf8ByteSize
      = acc.utf8ByteSize + (as.map (fun a => s.utf8ByteSize + a.utf8ByteSize)).sum := by
  induction as with
  | nil => intro acc; simp [String.intercalate.go]
  | cons a as ih =>
    intro acc
    simp only [String.intercalate.go, ih, List.map_cons, List.sum_cons, utf8_append]
    omega

theorem qrCapacity_le (v : Nat) : qrByteCapacityM v ≤ 2331 := by
  rw [qrByteCapacityM]
  rcases Nat.lt_or_ge (v - 1) qrCapTable.length with h | h
  · rw [List.getD_eq_getElem qrCapTable 0 h]
    have hm : qrCapTable[v - 1] ∈ qrCapTable := List.getElem_mem h
    have hall : ∀ x ∈ qrCapTable, x ≤ 2331 := by decide
    exact hall _ hm
  · rw [List.getD_eq_default]
    · omega
    · exact h

theorem qrSelectVersion_none_of_big (n : Nat) (h : 2331 < n) :
    qrSelectVersion n = none := by
  rw [qrSelectVersion, List.find?_eq_none]
  intro v _
  have := qrCapacity_le v
  simp only [decide_eq_true_eq]
  omega

theorem render_overflow (measure : String → Int × Int)
    (fillWrap : String → Nat → List String) (tl tr p : String) (W bs bd : Nat)
    (h : qrSelectVersion p.utf8ByteSize = none) :
    render_label_pil measure fillWrap tl tr p W bs bd = .error .dataOverflow := by
  rw [render_label_pil, h]

/-- C7 (code bug): a payload larger than the byte capacity of every supported
QR version (here: a biochar record whose notes field holds 2500 characters)
makes the QR encoder fail with `DataOverflowError`, and `generate_preview`
has no handler around `render_label_pil`, so the exception escapes the event
handler uncaught (`crash`) instead of being surfaced as a notice. -/
theorem claim7_overflow_uncaught :
    ∀ (measure : String → Int × Int) (fillWrap : String → Nat → List String),
    2331 < (make_text_biochar "A" "C" "B" "D" (pyFloatOr0 "500") (pyFloatOr0 "30") ""
        (String.mk (List.replicate 2500 'a'))).utf8ByteSize
    ∧ generate_preview_biochar measure fillWrap "Informações"
        ⟨"A", "B", "C", "D", "", "500", "30", String.mk (List.replicate 2500 'a')⟩
        = .crash .dataOverflow := by
  have hbig : ¬ (String.mk (List.replicate 2500 'a') = "") := by
    rw [mk_eq_empty_iff]
    simp
  have hbigsize : (String.mk (List.replicate 2500 'a')).utf8ByteSize = 2500 := by
    rw [utf8_mk, utf8go_replicate, show ('a').utf8Size = 1 from by decide]
  have hsize : 2331 < (make_text_biochar "A" "C" "B" "D" (pyFloatOr0 "500") (pyFloatOr0 "30") ""
      (String.mk (List.replicate 2500 'a'))).utf8ByteSize := by
    rw [make_text_biochar]
    have hnd : _normalize_date "" = "" := by decide
    simp only [biocharTextLines, hnd, ne_eq, not_true_eq_false, if_false, hbig,
      not_false_eq_true, if_true, List.nil_append, List.append_assoc, List.cons_append]
    simp only [String.intercalate, intercalate_go_utf8, List.map_cons, List.map_nil,
      List.sum_cons, List.sum_nil, utf8_append, hbigsize]
    omega
  intro measure fillWrap
  refine ⟨hsize, ?_⟩
  have e1 : pyStrip (_titlecase "A") = "A" := by decide
  have e2 : pyStrip (_titlecase "B") = "B" := by decide
  have e3 : pyStrip (_titlecase "C") = "C" := by decide
  have e4 : pyStrip (_titlecase "D") = "D" := by decide
  have hrender := render_overflow measure fillWrap (_titlecase "A") (_titlecase "B")
    (make_text_biochar "A" "C" "B" "D" (pyFloatOr0 "500") (pyFloatOr0 "30") ""
      (String.mk (List.replicate 2500 'a'))) 800 10 4
    (qrSelectVersion_none_of_big _ hsize)
  obtain ⟨N, hN⟩ : ∃ N, String.mk (List.replicate 2500 'a') = N := ⟨_, rfl⟩
  rw [hN] at hrender ⊢
  dsimp only [generate_preview_biochar]
  rw [e1, e2, e3, e4]
  rw [if_neg (by decide : ¬("A" = ""))]
  have hut : useText "Informações" = true := by decide
  rw [hut]
  rw [show _normalize_date "" = "" from by decide]
  simp only [if_true, hrender]

theorem pyIntTrunc_intCast (n : Int) : pyIntTrunc ((n : Int) : Rat) = n := by
  rw [pyIntTrunc, Rat.num_intCast, Rat.den_intCast]
  simp

theorem pyIntTrunc_natCast (n : Nat) : pyIntTrunc ((n : Nat) : Rat) = n := by
  rw [pyIntTrunc, Rat.num_natCast, Rat.den_natCast]
  simp

/-- C8: whenever the renderer succeeds, the QR scale factor is at most 1
(never an upscale); the drawn QR width equals the natural width when it fits
into `canvasWidthPx - 2*padding` and equals exactly `canvasWidthPx -
2*padding` otherwise, so a downscale happens precisely when the natural width
exceeds that bound; the scaled QR stays square, and it is horizontally
centered: the left margin is the floor half of the leftover width and differs
from the right margin by at most one pixel. -/
theorem claim8_qr_scaling :
    ∀ (measure : String → Int × Int) (fillWrap : String → Nat → List String)
      (tl tr payload : String) (W box bd : Nat) (lab : Label),
    60 ≤ W → 0 < box →
    render_label_pil measure fillWrap tl tr payload W box bd = .ok lab →
    lab.qr_scale ≤ 1
    ∧ lab.qr_w ≤ (lab.qr_natural_w : Int)
    ∧ lab.qr_h = lab.qr_w
    ∧ ((W : Int) - 60 < (lab.qr_natural_w : Int) → lab.qr_w = (W : Int) - 60)
    ∧ ((lab.qr_natural_w : Int) ≤ (W : Int) - 60 → lab.qr_w = (lab.qr_natural_w : Int))
    ∧ (lab.qr_w < (lab.qr_natural_w : Int) ↔ (W : Int) - 60 < (lab.qr_natural_w : Int))
    ∧ lab.qr_x = ((W : Int) - lab.qr_w).fdiv 2
    ∧ lab.qr_x ≤ (W : Int) - lab.qr_x - lab.qr_w
    ∧ (W : Int) - lab.qr_x - lab.qr_w ≤ lab.qr_x + 1 := by
  intro measure fillWrap tl tr payload W box bd lab hW hbox hre
  rw [render_label_pil] at hre
  cases hv : qrSelectVersion payload.utf8ByteSize with
  | none => rw [hv] at hre; exact absurd hre (by simp)
  | some v =>
    rw [hv] at hre
    injection hre with hre
    subst hre
    dsimp only
    have e60 : ((W : Int) - 2 * ((30 : Nat) : Int)) = (W : Int) - 60 := by norm_num
    rw [e60]
    have hnw0 : 0 < (17 + 4 * v + 2 * bd) * box := Nat.mul_pos (by omega) hbox
    have hnwQ : (0 : Rat) < (((17 + 4 * v + 2 * bd) * box : Nat) : Rat) := by
      exact_mod_cast hnw0
    have hnwne : ((((17 + 4 * v + 2 * bd) * box : Nat) : Rat)) ≠ 0 := ne_of_gt hnwQ
    rw [Rat.mkRat_one]
    rcases le_or_lt (((17 + 4 * v + 2 * bd) * box : Nat) : Int) ((W : Int) - 60) with hfit | hover
    · have h1le : (1 : Rat) ≤ (((W : Int) - 60 : Int) : Rat) / (((17 + 4 * v + 2 * bd) * box : Nat) : Rat) := by
        rw [one_le_div hnwQ]
        exact_mod_cast hfit
      rw [min_eq_right h1le, mul_one, pyIntTrunc_natCast]
      refine ⟨le_refl 1, le_refl _, rfl, ?_, ?_, ?_, rfl, ?_, ?_⟩
      · intro h; omega
      · intro h; rfl
      · constructor
        · intro h; omega
        · intro h; omega
      all_goals
        rw [Int.fdiv_eq_ediv _ (by norm_num)]
        omega
    · have hlt1 : (((W : Int) - 60 : Int) : Rat) / (((17 + 4 * v + 2 * bd) * box : Nat) : Rat) < 1 := by
        rw [div_lt_one hnwQ]
        exact_mod_cast hover
      rw [min_eq_left (le_of_lt hlt1)]
      have hprod : (((17 + 4 * v + 2 * bd) * box : Nat) : Rat)
          * ((((W : Int) - 60 : Int) : Rat) / (((17 + 4 * v + 2 * bd) * box : Nat) : Rat))
          = (((W : Int) - 60 : Int) : Rat) := by
        rw [← mul_div_assoc, mul_div_cancel_left₀ _ hnwne]
      rw [hprod, pyIntTrunc_intCast]
      refine ⟨le_of_lt hlt1, by omega, rfl, ?_, ?_, ?_, rfl, ?_, ?_⟩
      · intro _; rfl
      · intro h; omega
      · constructor
        · intro _; omega
        · intro _; omega
      all_goals
        rw [Int.fdiv_eq_ediv _ (by norm_num)]
        omega

/-- Witness for C8: a concrete render (one-byte payload, default 800-pixel
canvas) succeeds with scale 1, an unscaled 290-pixel QR, and margins 255/255. -/
theorem claim8_qr_scaling_witness :
    render_label_pil (fun _ => (0, 0)) (fun _ _ => []) "T" "" "p" 800 10 4
      = .ok { width := 800, height := 380, qr_version := 1, qr_natural_w := 290,
              qr_scale := 1, qr_w := 290, qr_h := 290, qr_x := 255, qr_y := 60,
              title_lines := ["T"], title_h := 0 }
    ∧ ({ width := 800, height := 380, qr_version := 1, qr_natural_w := 290,
         qr_scale := 1, qr_w := 290, qr_h := 290, qr_x := 255, qr_y := 60,
         title_lines := ["T"], title_h := 0 } : Label).qr_scale ≤ 1 := by
  have hre : render_label_pil (fun _ => (0, 0)) (fun _ _ => []) "T" "" "p" 800 10 4
      = .ok { width := 800, height := 380, qr_version := 1, qr_natural_w := 290,
              qr_scale := 1, qr_w := 290, qr_h := 290, qr_x := 255, qr_y := 60,
              title_lines := ["T"], title_h := 0 } := by
    with_unfolding_all rfl
  exact ⟨hre, (claim8_qr_scaling (fun _ => (0, 0)) (fun _ _ => []) "T" "" "p" 800 10 4 _
    (by decide) (by decide) hre).1⟩

/-- C9: for every temperature / residence-time input string that
`float(...)` cannot parse (after the empty-field fallback and the
comma-to-dot substitution), payload building does not fail: the parse
recovers to the value 0, and the whole `generate_preview` run behaves exactly
as if `"0"` had been entered — in particular no error outcome arises from the
numeric fields. -/
theorem claim9_numeric_leniency :
    ∀ t : String, pyFloat (commaToDot (pyOrZero t)) = none →
    pyFloatOr0 t = .fin 0
    ∧ ∀ (measure : String → Int × Int) (fillWrap : String → Nat → List String)
        (fmt : String) (f : BiocharForm),
      generate_preview_biochar measure fillWrap fmt
          { f with pyroC := t, res_min := t }
        = generate_preview_biochar measure fillWrap fmt
          { f with pyroC := "0", res_min := "0" } := by
  intro t ht
  have h0 : pyFloatOr0 t = .fin 0 := by rw [pyFloatOr0, ht]
  have hz : pyFloatOr0 "0" = .fin 0 := by decide
  refine ⟨h0, ?_⟩
  intro measure fillWrap fmt f
  simp only [generate_preview_biochar, h0, hz]

/-- Witness for C9: the non-numeric input `"abc"` is coerced to 0 and the
whole generation run equals the run with `"0"` entered. -/
theorem claim9_numeric_leniency_witness :
    pyFloatOr0 "abc" = .fin 0
    ∧ generate_preview_biochar (fun _ => (0, 0)) (fun _ _ => []) "json"
        ⟨"a", "b", "c", "d", "", "abc", "abc", ""⟩
      = generate_preview_biochar (fun _ => (0, 0)) (fun _ _ => []) "json"
        ⟨"a", "b", "c", "d", "", "0", "0", ""⟩ := by
  have h := claim9_numeric_leniency "abc" (by decide)
  exact ⟨h.1, h.2 (fun _ => (0, 0)) (fun _ _ => []) "json"
    ⟨"a", "b", "c", "d", "", "x", "y", ""⟩⟩

/-- C10: a numeric input with a comma as the decimal separator is parsed as
the corresponding number — `"500,5"` becomes `"500.5"` after the
comma-to-dot replacement and parses to 500.5 (the rational 1001/2), not to
the 0 fallback. -/
theorem claim10_comma_decimal :
    commaToDot "500,5" = "500.5"
    ∧ pyFloat "500.5" = some (.fin (mkRat 1001 2))
    ∧ pyFloatOr0 "500,5" = .fin (mkRat 1001 2)
    ∧ pyFloatOr0 "500,5" ≠ .fin 0 := by
  refine ⟨by decide, by decide, by decide, by decide⟩

end QrLabel
